import Mathlib

set_option maxRecDepth 100000

/-!
Verification of the analysis request orchestrator of the AI code review
application (src/index.tsx). The development embeds, from the source:
the JSON value model and a model of JSON.parse (the only response
processing the source performs), the React component state relevant to
the analysis lifecycle, the analyzeCode handler, the prompt template,
and the upload language auto-detection table.
-/

namespace CodeReview

/-- JSON values as produced by JSON.parse. Numbers are kept in decimal
form as mantissa times ten to the exp10 power, so no floating point
rounding is introduced by the embedding. -/
inductive Json where
  | null
  | bool (b : Bool)
  | num (mantissa : Int) (exp10 : Int)
  | str (s : String)
  | arr (elems : List Json)
  | obj (fields : List (String × Json))

/-- Whitespace characters of the JSON grammar. -/
def isJsonWs (c : Char) : Bool :=
  c = ' ' || c = '\t' || c = '\n' || c = '\r'

/-- Skip JSON whitespace at the head of the character stream. -/
def skipWs : List Char → List Char
  | c :: cs => if isJsonWs c then skipWs cs else c :: cs
  | [] => []

/-- Value of a hexadecimal digit, if the character is one. -/
def hexVal (c : Char) : Option Nat :=
  if '0' ≤ c ∧ c ≤ '9' then some (c.toNat - '0'.toNat)
  else if 'a' ≤ c ∧ c ≤ 'f' then some (c.toNat - 'a'.toNat + 10)
  else if 'A' ≤ c ∧ c ≤ 'F' then some (c.toNat - 'A'.toNat + 10)
  else none

/-- Body of a JSON string literal, after the opening quote: returns the
decoded string and the rest of the stream past the closing quote.
Handles the JSON escapes and rejects raw control characters. -/
def parseStringBody : Nat → List Char → List Char → Option (String × List Char)
  | 0, _, _ => none
  | _ + 1, [], _ => none
  | fuel + 1, c :: rest, acc =>
    if c = '"' then some (String.mk acc.reverse, rest)
    else if c = '\\' then
      match rest with
      | [] => none
      | e :: rest2 =>
        if e = '"' then parseStringBody fuel rest2 ('"' :: acc)
        else if e = '\\' then parseStringBody fuel rest2 ('\\' :: acc)
        else if e = '/' then parseStringBody fuel rest2 ('/' :: acc)
        else if e = 'b' then parseStringBody fuel rest2 ('\x08' :: acc)
        else if e = 'f' then parseStringBody fuel rest2 ('\x0c' :: acc)
        else if e = 'n' then parseStringBody fuel rest2 ('\n' :: acc)
        else if e = 'r' then parseStringBody fuel rest2 ('\r' :: acc)
        else if e = 't' then parseStringBody fuel rest2 ('\t' :: acc)
        else if e = 'u' then
          match rest2 with
          | h1 :: h2 :: h3 :: h4 :: rest3 =>
            match hexVal h1, hexVal h2, hexVal h3, hexVal h4 with
            | some a, some b, some c2, some d =>
              parseStringBody fuel rest3
                (Char.ofNat (((a * 16 + b) * 16 + c2) * 16 + d) :: acc)
            | _, _, _, _ => none
          | _ => none
        else none
    else if c.toNat < 32 then none
    else parseStringBody fuel rest (c :: acc)

/-- Take the maximal run of decimal digits at the head of the stream. -/
def takeDigits : List Char → List Char × List Char
  | c :: cs =>
    if c.isDigit then
      let (ds, r) := takeDigits cs
      (c :: ds, r)
    else ([], c :: cs)
  | [] => ([], [])

/-- Numeric value of a digit run. -/
def digitsToNat (ds : List Char) : Nat :=
  ds.foldl (fun a c => a * 10 + (c.toNat - '0'.toNat)) 0

/-- Assemble a JSON number from its sign, integer digits, fraction
digits and decimal exponent. -/
def mkNum (sign : Int) (intDs fracDs : List Char) (e : Int) : Json :=
  .num (sign * (digitsToNat (intDs ++ fracDs) : Int)) (e - (fracDs.length : Int))

/-- Optional exponent part of a JSON number, then assembly. -/
def parseExpPart (sign : Int) (intDs fracDs : List Char) :
    List Char → Option (Json × List Char)
  | c :: rest =>
    if c = 'e' ∨ c = 'E' then
      let (esign, cs1) : Int × List Char :=
        match rest with
        | '+' :: r => (1, r)
        | '-' :: r => (-1, r)
        | _ => (1, rest)
      let (expDs, cs2) := takeDigits cs1
      if expDs.isEmpty then none
      else some (mkNum sign intDs fracDs (esign * (digitsToNat expDs : Int)), cs2)
    else some (mkNum sign intDs fracDs 0, c :: rest)
  | [] => some (mkNum sign intDs fracDs 0, [])

/-- A JSON number at the head of the stream, per the JSON grammar
(optional minus, no leading zeros, optional fraction and exponent). -/
def parseNumber (cs0 : List Char) : Option (Json × List Char) :=
  let (sign, cs1) : Int × List Char :=
    match cs0 with
    | '-' :: rest => (-1, rest)
    | _ => (1, cs0)
  let (intDs, cs2) := takeDigits cs1
  if intDs.isEmpty then none
  else if intDs.length > 1 ∧ intDs.head? = some '0' then none
  else
    match cs2 with
    | '.' :: rest =>
      let (fracDs, cs3) := takeDigits rest
      if fracDs.isEmpty then none else parseExpPart sign intDs fracDs cs3
    | _ => parseExpPart sign intDs [] cs2

mutual

/-- A JSON value at the head of the stream. -/
def parseValue : Nat → List Char → Option (Json × List Char)
  | 0, _ => none
  | fuel + 1, cs =>
    match skipWs cs with
    | [] => none
    | 't' :: 'r' :: 'u' :: 'e' :: rest => some (.bool true, rest)
    | 'f' :: 'a' :: 'l' :: 's' :: 'e' :: rest => some (.bool false, rest)
    | 'n' :: 'u' :: 'l' :: 'l' :: rest => some (.null, rest)
    | '"' :: rest =>
      match parseStringBody (rest.length + 1) rest [] with
      | some (s, r) => some (.str s, r)
      | none => none
    | '[' :: rest =>
      match skipWs rest with
      | ']' :: r => some (.arr [], r)
      | cs2 => parseArrItems fuel cs2 []
    | c :: rest =>
      if c = '\x7b' then
        match skipWs rest with
        | [] => none
        | d :: r => if d = '\x7d' then some (.obj [], r) else parseObjItems fuel (d :: r) []
      else parseNumber (c :: rest)

/-- Elements of a JSON array after the opening bracket (nonempty case). -/
def parseArrItems : Nat → List Char → List Json → Option (Json × List Char)
  | 0, _, _ => none
  | fuel + 1, cs, acc =>
    match parseValue fuel cs with
    | none => none
    | some (j, rest) =>
      match skipWs rest with
      | ',' :: r => parseArrItems fuel r (j :: acc)
      | ']' :: r => some (.arr (j :: acc).reverse, r)
      | _ => none

/-- Members of a JSON object after the opening brace (nonempty case). -/
def parseObjItems : Nat → List Char → List (String × Json) → Option (Json × List Char)
  | 0, _, _ => none
  | fuel + 1, cs, acc =>
    match skipWs cs with
    | '"' :: rest =>
      match parseStringBody (rest.length + 1) rest [] with
      | none => none
      | some (key, rest2) =>
        match skipWs rest2 with
        | ':' :: rest3 =>
          match parseValue fuel rest3 with
          | none => none
          | some (j, rest4) =>
            match skipWs rest4 with
            | ',' :: r => parseObjItems fuel r ((key, j) :: acc)
            | [] => none
            | d :: r =>
              if d = '\x7d' then some (.obj ((key, j) :: acc).reverse, r) else none
        | _ => none
    | _ => none

end

/-- Model of JSON.parse: parses the whole string as one JSON value,
rejecting leftover input; failure models the thrown SyntaxError. -/
def parseJson (s : String) : Option Json :=
  match parseValue (2 * s.length + 2) s.data with
  | some (j, rest) => if (skipWs rest).isEmpty then some j else none
  | none => none

example : parseJson "not json" = none := rfl
example : parseJson "" = none := rfl
example : parseJson "92" = some (.num 92 0) := rfl
example : parseJson "[1, 2]" = some (.arr [.num 1 0, .num 2 0]) := rfl

/-- Drop leading whitespace characters from a character list. -/
def dropLeadingWs : List Char → List Char
  | c :: cs => if c.isWhitespace then dropLeadingWs cs else c :: cs
  | [] => []

/-- Model of the JavaScript String.prototype.trim method: remove
whitespace from both ends of the string. -/
def trimString (s : String) : String :=
  String.mk (dropLeadingWs (dropLeadingWs s.data).reverse).reverse

/-- Model of the JavaScript String.prototype.split method with a dot
separator, on character lists: split of the empty string is one empty
component, and every dot starts a new component. -/
def splitOnDot : List Char → List (List Char)
  | [] => [[]]
  | c :: cs =>
    if c = '.' then [] :: splitOnDot cs
    else
      match splitOnDot cs with
      | h :: t => (c :: h) :: t
      | [] => [[c]]

/-- The component state of App relevant to the analysis lifecycle
(src/index.tsx lines 22 to 26): code, language, isLoading, result and
error. The result field holds the value JSON.parse produced; the
TypeScript annotation AnalysisResult on parsedResult performs no
runtime check, so no further structure is imposed here. -/
structure AppState where
  code : String
  language : String
  isLoading : Bool
  result : Option Json
  error : Option String

/-- Outcome of the one generateContent call: either the response text
(response.text) or a raised transport fault. -/
inductive AdapterOutcome where
  | success (text : String)
  | failure

/-- Error message set on blank input (src/index.tsx line 80). -/
def emptyInputMessage : String := "Please enter some code to analyze."

/-- Error message set by the catch block (src/index.tsx line 159). -/
def genericErrorMessage : String :=
  "An error occurred while analyzing the code. Please check your API key and try again."

/-- Synchronous phase of analyzeCode up to the adapter dispatch
(src/index.tsx lines 79 to 86): on blank or whitespace-only code, set
the error and return without dispatching; otherwise set isLoading,
clear result and error, and dispatch. The Bool records whether the
adapter call was dispatched. -/
def analyzeStart (s : AppState) : AppState × Bool :=
  if (trimString s.code).isEmpty then ({ s with error := some emptyInputMessage }, false)
  else ({ s with isLoading := true, result := none, error := none }, true)

/-- Continuation of analyzeCode after the adapter resolves
(src/index.tsx lines 153 to 162): on success, trim the response text
and JSON.parse it, storing the parsed value as the result; a parse
failure, like a raised transport fault, lands in the catch block which
sets the single generic error message; the finally block clears
isLoading on every path. -/
def analyzeResolve (s : AppState) (out : AdapterOutcome) : AppState :=
  match out with
  | .failure => { s with error := some genericErrorMessage, isLoading := false }
  | .success text =>
    match parseJson (trimString text) with
    | some parsed => { s with result := some parsed, isLoading := false }
    | none => { s with error := some genericErrorMessage, isLoading := false }

/-- The whole analyzeCode handler for one invocation, given the
outcome the adapter would produce. The Bool of the pair records
whether the adapter was invoked at all. -/
def analyzeCode (s : AppState) (out : AdapterOutcome) : AppState × Bool :=
  if (analyzeStart s).snd then (analyzeResolve (analyzeStart s).fst out, true)
  else ((analyzeStart s).fst, false)

/-- The disabled condition of the analyze button
(src/index.tsx line 544): disabled while loading or while the code is
blank after trimming. -/
def analyzeButtonDisabled (s : AppState) : Bool :=
  s.isLoading || (trimString s.code).isEmpty

/-- A user click on the analyze button: the onClick handler
analyzeCode runs only when the button is not disabled. -/
def clickAnalyze (s : AppState) (out : AdapterOutcome) : AppState × Bool :=
  if analyzeButtonDisabled s then (s, false) else analyzeCode s out

/-- Literal chunk of the prompt template before the first language
interpolation (src/index.tsx lines 131 to 132). -/
def promptChunkA : String :=
  "\n        You are an expert code reviewer. Analyze the following "

/-- Literal chunk of the prompt template between the first language
interpolation and the opening code fence (lines 132 to 139). -/
def promptChunkB : String :=
  " code for errors, code smells, performance issues, and best practice violations. Provide:\n        1. An overall code quality score from 0 to 100.\n        2. A list of specific issues found, including the line number, a description of the issue, and a suggested fix.\n        3. An optimized version of the entire code block.\n        4. A summary of the findings in plain English.\n\n        Code to review:\n        "

/-- Literal chunk between the fence language tag and the code
interpolation (lines 139 to 140): newline plus indentation. -/
def promptChunkC : String := "\n        "

/-- Literal chunk after the code interpolation: newline, indentation,
closing fence, newline, closing indentation (lines 140 to 142). -/
def promptChunkD : String := "\n        ```\n      "

/-- The prompt template literal of analyzeCode (src/index.tsx lines
131 to 142), chunk for chunk: literal text with the language
interpolated twice and the code interpolated once. -/
def buildPrompt (language code : String) : String :=
  promptChunkA ++ language ++ promptChunkB ++ "```" ++ language ++
    promptChunkC ++ code ++ promptChunkD

/-- The static extension to language table of handleFileChange
(src/index.tsx lines 44 to 53). -/
def langMap : List (String × String) :=
  [("js", "javascript"), ("py", "python"), ("ts", "typescript"), ("java", "java"),
   ("cs", "csharp"), ("cpp", "cpp"), ("go", "go"), ("rs", "rust")]

/-- Language auto-detection of handleFileChange (src/index.tsx lines
43 to 56): take the last dot-separated component of the file name,
lowercase it, and if it is nonempty and in the table, select the
mapped language; otherwise keep the current selection. -/
def autoDetectLanguage (fileName : String) (current : String) : String :=
  let extension := String.mk (((splitOnDot fileName.data).getLastD []).map Char.toLower)
  if extension.isEmpty then current
  else
    match langMap.lookup extension with
    | some lang => lang
    | none => current

example : autoDetectLanguage "solution.rs" "javascript" = "rust" := rfl
example : autoDetectLanguage "notes.txt" "javascript" = "javascript" := rfl
example : autoDetectLanguage "MAIN.PY" "javascript" = "python" := rfl

/-- Helper: the failure-scenario response string does not parse. -/
theorem parseJson_trim_notjson : parseJson (trimString "not json") = none := rfl

/-- Helper state: an analysis request currently in flight. -/
def inFlightState : AppState := ⟨"let x = 1;", "javascript", true, none, none⟩

/-- Helper state: idle, with nonblank code and no result or error. -/
def idleState : AppState := ⟨"let x = 1;", "javascript", false, none, none⟩

/-- A schema-conforming response whose score is out of range: every
required field is present, score is 150. -/
def outOfRangeResponse : String :=
  "\x7b\"score\": 150, \"summary\": \"ok\", \"issues\": [], \"optimizedCode\": \"y\"\x7d"

/-- The JSON value the out-of-range response parses to. -/
def outOfRangeJson : Json :=
  .obj [("score", .num 150 0), ("summary", .str "ok"),
        ("issues", .arr []), ("optimizedCode", .str "y")]

/-- Claim C1 counterexample: the adapter response with score 150 and
all required fields present is accepted by the response processing
step: analyzeCode stores the parsed value as the result and sets no
error at all, instead of signaling a schema violation and producing no
result. The out-of-range score is neither rejected nor clamped. -/
theorem c1_counterexample :
    (analyzeCode idleState (.success outOfRangeResponse)).fst.result =
      some outOfRangeJson ∧
    (analyzeCode idleState (.success outOfRangeResponse)).fst.error = none :=
  ⟨rfl, rfl⟩

/-- Claim C1 amended: a response that is not parseable JSON makes the
handler end in the failed state with the generic error and no result;
but a response that parses as JSON is stored as the result exactly as
parsed, with no field or range validation, so a missing required field
or an out-of-range score is accepted silently rather than rejected. -/
theorem c1_parse_is_only_validation (s : AppState) (text : String)
    (h : (trimString s.code).isEmpty = false) :
    (parseJson (trimString text) = none →
      (analyzeCode s (.success text)).fst.error = some genericErrorMessage ∧
      (analyzeCode s (.success text)).fst.result = none) ∧
    (∀ j : Json, parseJson (trimString text) = some j →
      (analyzeCode s (.success text)).fst.result = some j ∧
      (analyzeCode s (.success text)).fst.error = none) := by
  constructor
  · intro hp
    constructor <;> simp [analyzeCode, analyzeStart, analyzeResolve, h, hp]
  · intro j hp
    constructor <;> simp [analyzeCode, analyzeStart, analyzeResolve, h, hp]

/-- Witness for claim C1 amended, at the concrete idle state and the
out-of-range response. -/
theorem c1_parse_is_only_validation_witness :
    ((trimString idleState.code).isEmpty = false) ∧
    parseJson (trimString outOfRangeResponse) = some outOfRangeJson ∧
    (analyzeCode idleState (.success outOfRangeResponse)).fst.result =
      some outOfRangeJson :=
  ⟨rfl, rfl,
    ((c1_parse_is_only_validation idleState outOfRangeResponse rfl).2
      outOfRangeJson rfl).1⟩

/-- Claim C2: while a request is in flight, the analyze button is
disabled, so a user click does not run analyzeCode: no second adapter
call is dispatched and the state is untouched, and the continuation of
the in-flight request later applies exactly as if the click had not
happened. -/
theorem c2_single_request_in_flight (s : AppState) (out resolution : AdapterOutcome)
    (h : s.isLoading = true) :
    clickAnalyze s out = (s, false) ∧
    analyzeResolve (clickAnalyze s out).fst resolution = analyzeResolve s resolution := by
  have hd : analyzeButtonDisabled s = true := by
    simp [analyzeButtonDisabled, h]
  exact ⟨by simp [clickAnalyze, hd], by simp [clickAnalyze, hd]⟩

/-- Witness for claim C2 at a concrete in-flight state. -/
theorem c2_single_request_in_flight_witness :
    (inFlightState.isLoading = true) ∧
    clickAnalyze inFlightState .failure = (inFlightState, false) :=
  ⟨rfl, (c2_single_request_in_flight inFlightState .failure .failure rfl).1⟩

/-- A previously stored analysis result, used to exhibit staleness. -/
def priorResultJson : Json :=
  .obj [("score", .num 90 0), ("summary", .str "good"),
        ("issues", .arr []), ("optimizedCode", .str "x")]

/-- Helper state: a previous analysis succeeded (result populated) and
the code has since been replaced by whitespace. -/
def staleSuccessState : AppState := ⟨"   ", "python", false, some priorResultJson, none⟩

/-- Claim C3 counterexample: invoking analyzeCode with whitespace-only
code after a previous success sets the empty-input error while leaving
the previously populated result in place, so a failed state coexists
with a populated result. -/
theorem c3_counterexample :
    (analyzeCode staleSuccessState .failure).fst.error = some emptyInputMessage ∧
    (analyzeCode staleSuccessState .failure).fst.result = some priorResultJson :=
  ⟨rfl, rfl⟩

/-- Claim C3 amended: on every invocation whose code is nonblank after
trimming, the handler clears the result before the attempt, so a
failure (error set) never coexists with a populated result; the
empty-input path however sets the error without clearing a previously
populated result, as the counterexample shows (through the UI that
path is unreachable because the analyze button is disabled for blank
code). -/
theorem c3_failure_clears_result (s : AppState) (out : AdapterOutcome)
    (h : (trimString s.code).isEmpty = false) :
    ((analyzeCode s out).fst.error).isSome = true →
    (analyzeCode s out).fst.result = none := by
  intro he
  cases out with
  | failure => simp [analyzeCode, analyzeStart, analyzeResolve, h]
  | success text =>
    cases hp : parseJson (trimString text) with
    | none => simp [analyzeCode, analyzeStart, analyzeResolve, h, hp]
    | some j =>
      exfalso
      simp [analyzeCode, analyzeStart, analyzeResolve, h, hp] at he

/-- Witness for claim C3 amended, at a concrete transport failure. -/
theorem c3_failure_clears_result_witness :
    ((trimString idleState.code).isEmpty = false) ∧
    ((analyzeCode idleState .failure).fst.error).isSome = true ∧
    (analyzeCode idleState .failure).fst.result = none :=
  ⟨rfl, rfl, c3_failure_clears_result idleState .failure rfl rfl⟩

/-- Claim C4: for every code input that is blank or whitespace-only
after trimming, analyzeCode sets the empty-input error message and
returns at once; the Bool false records that the Model Client Adapter
was never invoked. -/
theorem c4_blank_input_no_adapter_call (s : AppState) (out : AdapterOutcome)
    (h : (trimString s.code).isEmpty = true) :
    analyzeCode s out = ({ s with error := some emptyInputMessage }, false) := by
  simp [analyzeCode, analyzeStart, h]

/-- Witness for claim C4 at a concrete whitespace-only input. -/
theorem c4_blank_input_no_adapter_call_witness :
    ((trimString (" \n " : String)).isEmpty = true) ∧
    analyzeCode ⟨" \n ", "go", false, none, none⟩ .failure =
      (⟨" \n ", "go", false, none, some emptyInputMessage⟩, false) :=
  ⟨rfl, c4_blank_input_no_adapter_call ⟨" \n ", "go", false, none, none⟩ .failure rfl⟩

/-- Claim C5 counterexample: from the same idle state, the adapter
returning the unparseable string and the adapter raising a transport
fault produce identical final states, both carrying the one generic
error message, so the two outcomes are not distinguishable to the
caller. -/
theorem c5_counterexample :
    analyzeCode idleState (.success "not json") = analyzeCode idleState .failure ∧
    (analyzeCode idleState .failure).fst.error = some genericErrorMessage :=
  ⟨rfl, rfl⟩

/-- Claim C5 amended: both the adapter returning the string
not json and the adapter raising a transport fault end in a failed
state with no result, but the catch block sets the same generic error
message in both cases, so the controller does not distinguish a schema
violation from a transport failure. -/
theorem c5_failures_indistinguishable (s : AppState)
    (h : (trimString s.code).isEmpty = false) :
    analyzeCode s (.success "not json") = analyzeCode s .failure ∧
    (analyzeCode s .failure).fst.error = some genericErrorMessage ∧
    (analyzeCode s .failure).fst.result = none := by
  refine ⟨?_, ?_, ?_⟩ <;>
    simp [analyzeCode, analyzeStart, analyzeResolve, h, parseJson_trim_notjson]

/-- Witness for claim C5 amended at the concrete idle state. -/
theorem c5_failures_indistinguishable_witness :
    ((trimString idleState.code).isEmpty = false) ∧
    analyzeCode idleState (.success "not json") = analyzeCode idleState .failure :=
  ⟨rfl, (c5_failures_indistinguishable idleState rfl).1⟩

/-- The round-trip scenario input code. -/
def roundTripCode : String := "def add(a,b):\n  return a+b"

/-- The round-trip scenario stub adapter response. -/
def roundTripResponse : String :=
  "\x7b\"score\": 92, \"summary\": \"Clean simple function.\", \"issues\": [], \"optimizedCode\": \"def add(a: int, b: int) -> int:\\n    return a + b\"\x7d"

/-- The JSON value the round-trip response parses to: exactly the
analysis result of the scenario. -/
def roundTripJson : Json :=
  .obj [("score", .num 92 0), ("summary", .str "Clean simple function."),
        ("issues", .arr []),
        ("optimizedCode", .str "def add(a: int, b: int) -> int:\n    return a + b")]

/-- The round-trip scenario initial state. -/
def roundTripState : AppState := ⟨roundTripCode, "python", false, none, none⟩

/-- Claim C6: on the round-trip scenario the handler dispatches the
adapter and ends not loading, with no error and with exactly the
scenario result stored; and in general every response that parses is
stored as the result unchanged, so the issues sequence of the stored
result is the issue list of the response, same length and order. -/
theorem c6_round_trip :
    (analyzeCode roundTripState (.success roundTripResponse) =
      (⟨roundTripCode, "python", false, some roundTripJson, none⟩, true)) ∧
    ∀ (s : AppState) (text : String) (j : Json),
      (trimString s.code).isEmpty = false → parseJson (trimString text) = some j →
      (analyzeCode s (.success text)).fst.result = some j ∧
      (analyzeCode s (.success text)).fst.error = none := by
  constructor
  · rfl
  · intro s text j h hp
    constructor <;> simp [analyzeCode, analyzeStart, analyzeResolve, h, hp]

/-- Witness for claim C6, instantiating the general part at the
round-trip scenario itself. -/
theorem c6_round_trip_witness :
    ((trimString roundTripState.code).isEmpty = false) ∧
    parseJson (trimString roundTripResponse) = some roundTripJson ∧
    (analyzeCode roundTripState (.success roundTripResponse)).fst.result =
      some roundTripJson :=
  ⟨rfl, rfl, (c6_round_trip.2 roundTripState roundTripResponse roundTripJson rfl rfl).1⟩

/-- Claim C7: the prompt is the template text with the code embedded
verbatim as one contiguous substring, between an opening fence line
tagged with the language and a closing fence; no truncation and no
re-encoding happens, so the whitespace and line breaks of the code are
preserved exactly. -/
theorem c7_prompt_embeds_code_verbatim (language code : String) :
    buildPrompt language code =
      (promptChunkA ++ language ++ promptChunkB) ++
        ("```" ++ language ++ promptChunkC) ++ code ++ promptChunkD := by
  simp [buildPrompt, String.append_assoc]

/-- Claim C8: the upload language selection follows the fixed
extension table: solution.rs selects rust for every previous
selection, notes.txt keeps the previous selection, and each of the
eight mapped extensions selects its mapped language. -/
theorem c8_extension_table (prev : String) :
    autoDetectLanguage "solution.rs" prev = "rust" ∧
    autoDetectLanguage "notes.txt" prev = prev ∧
    autoDetectLanguage "a.js" prev = "javascript" ∧
    autoDetectLanguage "a.py" prev = "python" ∧
    autoDetectLanguage "a.ts" prev = "typescript" ∧
    autoDetectLanguage "a.java" prev = "java" ∧
    autoDetectLanguage "a.cs" prev = "csharp" ∧
    autoDetectLanguage "a.cpp" prev = "cpp" ∧
    autoDetectLanguage "a.go" prev = "go" ∧
    autoDetectLanguage "a.rs" prev = "rust" :=
  ⟨rfl, rfl, rfl, rfl, rfl, rfl, rfl, rfl, rfl, rfl⟩

/-- Claim C9: extension matching is case-insensitive because the
extension is lowercased before the table lookup: MAIN.PY selects
python exactly as main.py does, for every previous selection. -/
theorem c9_extension_case_insensitive (prev : String) :
    autoDetectLanguage "MAIN.PY" prev = "python" ∧
    autoDetectLanguage "main.py" prev = "python" :=
  ⟨rfl, rfl⟩

/-- Claim C10: for every invocation that passes input validation, the
loading flag is false once the attempt resolves, on every path:
adapter success with a parseable response, adapter success with an
unparseable response, and adapter failure. -/
theorem c10_loading_cleared_on_resolution (s : AppState) (out : AdapterOutcome)
    (h : (trimString s.code).isEmpty = false) :
    ((analyzeCode s out).fst).isLoading = false := by
  cases out with
  | failure => simp [analyzeCode, analyzeStart, analyzeResolve, h]
  | success text =>
    cases hp : parseJson (trimString text) with
    | none => simp [analyzeCode, analyzeStart, analyzeResolve, h, hp]
    | some j => simp [analyzeCode, analyzeStart, analyzeResolve, h, hp]

/-- Witness for claim C10 at a concrete adapter failure. -/
theorem c10_loading_cleared_on_resolution_witness :
    ((trimString idleState.code).isEmpty = false) ∧
    ((analyzeCode idleState .failure).fst).isLoading = false :=
  ⟨rfl, c10_loading_cleared_on_resolution idleState .failure rfl⟩

end CodeReview
